import Mathlib

/-!
Verification of the orchestration agent (`src/agent.py`) and the ingestion
collaborator (`src/script.py`).

The agent is a LangGraph state machine over a partial record `AgentState`
(Python `TypedDict`: absent keys are modelled as `none`).  External services
(the chat model and the SQL execution tool) are modelled as an `Oracle` of
arbitrary response functions, so every theorem about the graph quantifies
over all possible model outputs and execution outcomes.
-/

set_option maxHeartbeats 1000000

namespace Botivate

/-- Python `needle in hay` on strings: substring containment. -/
def pyIn (needle hay : String) : Bool :=
  hay.toList.tails.any (fun t => List.isPrefixOf needle.toList t)

/-- Python `hay.startswith(needle)`. -/
def pyStartsWith (needle hay : String) : Bool :=
  List.isPrefixOf needle.toList hay.toList

/-- `AgentState` of `src/agent.py` (a `TypedDict`): fields the caller does not
provide and no node has written yet are absent, modelled as `none`.
`question` and `chat_history` are always provided by the caller. -/
structure AgentState where
  question : String
  chat_history : List String
  query : Option String
  result : Option String
  answer : Option String
  retries : Option Nat
  intent : Option String
deriving Repr, DecidableEq

/-- The nodes of the compiled graph, plus LangGraph's `END` and a `crashed`
pseudo-node standing for a Python exception (e.g. a `KeyError` on a missing
state key, or a router returning a name outside the `path_map`). -/
inductive Node where
  | classify_intent
  | handle_conversation
  | generate_query
  | execute_query
  | summarize_result
  | handle_error
  | END
  | crashed
deriving Repr, DecidableEq

/-- The opaque external services: the chat model's structured tool selection
for the classifier, its raw text completions for the generator and the three
answer-producing nodes, and the SQL execution tool's textual outcome.  Each is
an arbitrary function of the current state, so theorems quantify over every
possible sequence of model outputs and execution outcomes. -/
structure Oracle where
  tool_calls : List String
  gen_raw : AgentState → String
  exec_result : AgentState → String
  conv_answer : AgentState → String
  summ_answer : AgentState → String
  error_answer : AgentState → String

/-- `classify_intent_node`: if the model reply has no tool calls the intent is
`"Conversation"`, otherwise the name of the first tool call. -/
def classify_intent_node (o : Oracle) (_s : AgentState) : String :=
  match o.tool_calls with
  | [] => "Conversation"
  | name :: _ => name

/-- `decide_intent_path`: reads `state["intent"]` (a `KeyError`, i.e. `none`,
if absent) and branches on equality with `"DatabaseQuery"`. -/
def decide_intent_path (s : AgentState) : Option String :=
  match s.intent with
  | none => none
  | some intent =>
      some (if intent = "DatabaseQuery" then "generate_query" else "handle_conversation")

/-- The code-fence stripping in `generate_query_node`:
`raw.strip().replace("```sql", "").replace("```", "").strip()`. -/
def sanitize_sql (raw : String) : String :=
  ((raw.trim.replace "```sql" "").replace "```" "").trim

/-- `generate_query_node`: produces the sanitized SQL text of the model's raw
completion and `state.get("retries", 0) + 1`.  (The prompt construction,
including the error context added when `"Error:" in state.get("result", "")`,
only shapes the model input and is absorbed into `o.gen_raw`.)  The node's
return value is exactly the pair of updates `{"query": ..., "retries": ...}`. -/
def generate_query_node (o : Oracle) (s : AgentState) : String × Nat :=
  (sanitize_sql (o.gen_raw s), s.retries.getD 0 + 1)

/-- `execute_query_node`: the SQL tool's textual outcome (row payload or an
`"Error:"`-carrying message), modelled by the oracle. -/
def execute_query_node (o : Oracle) (s : AgentState) : String :=
  o.exec_result s

/-- `decide_result_status`: `"Error:" in state["result"]` (substring test),
then `state["retries"] > 7` chooses between giving up and regenerating;
otherwise summarize.  A missing key is a `KeyError`, modelled as `none`. -/
def decide_result_status (s : AgentState) : Option String :=
  match s.result with
  | none => none
  | some result =>
      if pyIn "Error:" result then
        match s.retries with
        | none => none
        | some retries =>
            some (if retries > 7 then "handle_error" else "generate_query")
      else
        some "summarize_result"

/-- The union of the two `path_map`s of the compiled graph: router strings to
nodes; an unmapped name is a LangGraph error (`crashed`). -/
def nodeOfRoute (route : String) : Node :=
  if route = "generate_query" then Node.generate_query
  else if route = "handle_conversation" then Node.handle_conversation
  else if route = "summarize_result" then Node.summarize_result
  else if route = "handle_error" then Node.handle_error
  else Node.crashed

/-- One scheduling step of the compiled graph: run the current node on the
state, merge the partial update it returns, and follow the (conditional)
edge out of it.  `END` and `crashed` are absorbing. -/
def step (o : Oracle) (c : Node × AgentState) : Node × AgentState :=
  match c with
  | (Node.classify_intent, s) =>
      let s2 : AgentState := { s with intent := some (classify_intent_node o s) }
      match decide_intent_path s2 with
      | some route => (nodeOfRoute route, s2)
      | none => (Node.crashed, s2)
  | (Node.generate_query, s) =>
      let u := generate_query_node o s
      (Node.execute_query, { s with query := some u.1, retries := some u.2 })
  | (Node.execute_query, s) =>
      let s2 : AgentState := { s with result := some (execute_query_node o s) }
      match decide_result_status s2 with
      | some route => (nodeOfRoute route, s2)
      | none => (Node.crashed, s2)
  | (Node.handle_conversation, s) => (Node.END, { s with answer := some (o.conv_answer s) })
  | (Node.summarize_result, s) => (Node.END, { s with answer := some (o.summ_answer s) })
  | (Node.handle_error, s) => (Node.END, { s with answer := some (o.error_answer s) })
  | (Node.END, s) => (Node.END, s)
  | (Node.crashed, s) => (Node.crashed, s)

/-- The trace of the graph: `n` scheduling steps from configuration `c`. -/
def iterRun (o : Oracle) (c : Node × AgentState) (n : Nat) : Node × AgentState :=
  (step o)^[n] c

/-- How many of the first `n` steps of the trace execute the generate node. -/
def genCount (o : Oracle) (c : Node × AgentState) : Nat → Nat
  | 0 => 0
  | n + 1 => genCount o c n + (if (iterRun o c n).1 = Node.generate_query then 1 else 0)

/-- The three answer-producing terminal nodes of the graph. -/
def isTerminal : Node → Bool
  | Node.handle_conversation => true
  | Node.summarize_result => true
  | Node.handle_error => true
  | _ => false

/-!
Model of the ingestion collaborator `src/script.py`.  A sheet row is a Python
dict from column-name keys to cell values; cell values are kept as the strings
`str(...)` produces.  A dict is modelled as an association list with unique
keys; `row.get(col, dflt)` is an association lookup.
-/

/-- A fetched sheet row: a dict of column name to cell text. -/
abbrev Row := List (String × String)

/-- Python `row.get(col, dflt)` over the dict model. -/
def rowGet (row : Row) (col : String) (dflt : String) : String :=
  match row.find? (fun p => p.1 == col) with
  | some p => p.2
  | none => dflt

/-- Python `row.get(col, None)` over the dict model. -/
def rowGetOpt (row : Row) (col : String) : Option String :=
  (row.find? (fun p => p.1 == col)).map (fun p => p.2)

/-- Python `value.isdigit()` (ASCII decimal digits): non-empty and all digits. -/
def strIsDigit (v : String) : Bool :=
  !v.toList.isEmpty && v.toList.all (fun ch => ch.isDigit)

/-- The integer lexical test of `infer_column_types`:
`value.isdigit() or (value.startswith('-') and value[1:].isdigit())`. -/
def intLexical (v : String) : Bool :=
  strIsDigit v ||
    (match v.toList with
     | '-' :: rest => !rest.isEmpty && rest.all (fun ch => ch.isDigit)
     | _ => false)

/-- Digits prefix of a character list, and the remainder. -/
def takeDigits (l : List Char) : List Char × List Char :=
  (l.takeWhile (fun ch => ch.isDigit), l.dropWhile (fun ch => ch.isDigit))

/-- Mantissa of a Python float literal: `D+ | D+ . D* | . D+`; returns the
remaining characters on success. -/
def parseMantissa (l : List Char) : Option (List Char) :=
  let d1 := takeDigits l
  match d1.2 with
  | '.' :: r2 =>
      let d2 := takeDigits r2
      if d1.1.isEmpty && d2.1.isEmpty then none else some d2.2
  | _ => if d1.1.isEmpty then none else some d1.2

/-- Optional exponent part `([eE] [+-]? D+)?`; returns the remainder. -/
def parseExponent (l : List Char) : Option (List Char) :=
  match l with
  | 'e' :: r =>
      let r2 := match r with
        | '+' :: t => t
        | '-' :: t => t
        | _ => r
      let d := takeDigits r2
      if d.1.isEmpty then none else some d.2
  | 'E' :: r =>
      let r2 := match r with
        | '+' :: t => t
        | '-' :: t => t
        | _ => r
      let d := takeDigits r2
      if d.1.isEmpty then none else some d.2
  | _ => some l

/-- Unsigned Python float text: a mantissa with optional exponent consuming
the whole input, or one of the special words `inf`, `infinity`, `nan`. -/
def unsignedFloat (l : List Char) : Bool :=
  (match parseMantissa l with
   | some r =>
       (match parseExponent r with
        | some rem => rem.isEmpty
        | none => false)
   | none => false) ||
  (let w := l.map Char.toLower
   w = "inf".toList || w = "infinity".toList || w = "nan".toList)

/-- Strip one optional leading sign character. -/
def stripSign (l : List Char) : List Char :=
  match l with
  | c :: r => if c == '+' || c == '-' then r else c :: r
  | [] => []

/-- Python `float(value)` succeeding: optional sign then an unsigned float. -/
def floatParses (v : String) : Bool :=
  unsignedFloat (stripSign v.toList)

/-- The per-column scanning loop of `infer_column_types`, carried flags
`is_integer` / `is_real`, with the early `break` once both are false.
Each row contributes `value = str(row.get(col, ''))`; empty values are
skipped. -/
def inferFlags (col : String) : List Row → Bool → Bool → Bool × Bool
  | [], isInt, isReal => (isInt, isReal)
  | row :: rest, isInt, isReal =>
      let value := rowGet row col ""
      if value = "" then
        inferFlags col rest isInt isReal
      else
        let isInt2 := isInt && intLexical value
        let isReal2 := if isReal && !isInt2 then floatParses value else isReal
        if !isInt2 && !isReal2 then (isInt2, isReal2)
        else inferFlags col rest isInt2 isReal2

/-- Final type of one column: the flag loop started at `(True, True)`, then
`INTEGER` if `is_integer`, else `REAL` if `is_real`, else `TEXT`. -/
def inferOne (rows : List Row) (col : String) : String :=
  let flags := inferFlags col rows true true
  if flags.1 then "INTEGER" else if flags.2 then "REAL" else "TEXT"

/-- `infer_column_types(rows)`: the non-empty keys of the first row, each
mapped to its inferred type. -/
def infer_column_types (rows : List Row) : List (String × String) :=
  match rows with
  | [] => []
  | first :: _ =>
      ((first.map Prod.fst).filter (fun c => c != "")).map
        (fun col => (col, inferOne rows col))

/-- `rows.all` over the non-empty values of a column: every non-empty sampled
value passes the integer lexical test. -/
def colAllInt (rows : List Row) (col : String) : Bool :=
  rows.all (fun row => (rowGet row col "" == "") || intLexical (rowGet row col ""))

/-- Every non-empty sampled value of the column parses as a Python float. -/
def colAllFloat (rows : List Row) (col : String) : Bool :=
  rows.all (fun row => (rowGet row col "" == "") || floatParses (rowGet row col ""))

/-- The per-table work of `write_to_sqlite`: `none` when the sheet is skipped
(no rows, or no non-empty column names in the first row); otherwise the
retained columns `[col for col in rows[0].keys() if col]`, the inferred
column types, and the tuples `row.get(col, None)` inserted per row. -/
def processTable (rows : List Row) :
    Option (List String × List (String × String) × List (List (Option String))) :=
  match rows with
  | [] => none
  | first :: _ =>
      let columns := (first.map Prod.fst).filter (fun c => c != "")
      if columns.isEmpty then none
      else
        some (columns, infer_column_types rows,
          rows.map (fun row => columns.map (fun col => rowGetOpt row col)))

/-- The retry invariant: the counter never exceeds 8, and on entry to either
node that can still reach a generation it is at most 7. -/
def InvR (c : Node × AgentState) : Prop :=
  c.2.retries.getD 0 ≤ 8 ∧
    ((c.1 = Node.classify_intent ∨ c.1 = Node.generate_query) → c.2.retries.getD 0 ≤ 7)

/-- A caller-provided initial state: only `question` and `chat_history` set. -/
def sampleState : AgentState :=
  { question := "Aaj kya date?", chat_history := [],
    query := none, result := none, answer := none, retries := none, intent := none }

/-- A state as it reaches the router with a marker-prefixed failure and an
exhausted retry budget. -/
def errState : AgentState :=
  { question := "q", chat_history := [], query := some "SELECT 1",
    result := some "Error: bad", answer := none, retries := some 8,
    intent := some "DatabaseQuery" }

/-- A state whose classifier chose the conversation intent. -/
def convState : AgentState :=
  { sampleState with intent := some "Conversation" }

/-- A concrete environment: no tool calls (conversation default), a constant
generation, and executions that always succeed. -/
def sampleOracle : Oracle :=
  { tool_calls := [],
    gen_raw := fun _ => "SELECT 1",
    exec_result := fun _ => "ok",
    conv_answer := fun _ => "hello",
    summ_answer := fun _ => "one row",
    error_answer := fun _ => "could not answer" }

/-- The same environment with a database-query tool selection. -/
def dbOracle : Oracle :=
  { sampleOracle with tool_calls := ["DatabaseQuery"] }

/-! ### Basic lemmas about the trace semantics -/

lemma pyStartsWith_pyIn (needle hay : String) (h : pyStartsWith needle hay = true) :
    pyIn needle hay = true := by
  have hm : hay.toList ∈ hay.toList.tails := (List.mem_tails _ _).mpr (List.suffix_refl _)
  simp only [pyIn, List.any_eq_true]
  exact ⟨hay.toList, hm, h⟩

lemma iterRun_zero (o : Oracle) (c : Node × AgentState) : iterRun o c 0 = c := rfl

lemma iterRun_one (o : Oracle) (c : Node × AgentState) : iterRun o c 1 = step o c := by
  simp [iterRun]

lemma iterRun_succ (o : Oracle) (c : Node × AgentState) (n : Nat) :
    iterRun o c (n + 1) = iterRun o (step o c) n := by
  simp [iterRun, Function.iterate_succ_apply]

lemma iterRun_succ2 (o : Oracle) (c : Node × AgentState) (n : Nat) :
    iterRun o c (n + 1) = step o (iterRun o c n) := by
  simp [iterRun, Function.iterate_succ_apply']

lemma iterRun_add (o : Oracle) (c : Node × AgentState) (m k : Nat) :
    iterRun o c (m + k) = iterRun o (iterRun o c k) m :=
  Function.iterate_add_apply _ m k c

lemma iterRun_end (o : Oracle) (s : AgentState) (k : Nat) :
    iterRun o (Node.END, s) k = (Node.END, s) :=
  Function.iterate_fixed rfl k

lemma step_generate (o : Oracle) (s : AgentState) :
    step o (Node.generate_query, s) =
      (Node.execute_query,
        { s with query := some (sanitize_sql (o.gen_raw s)),
                 retries := some (s.retries.getD 0 + 1) }) := rfl

lemma step_classify_db (o : Oracle) (s : AgentState)
    (h : classify_intent_node o s = "DatabaseQuery") :
    step o (Node.classify_intent, s) =
      (Node.generate_query, { s with intent := some "DatabaseQuery" }) := by
  simp [step, decide_intent_path, h, nodeOfRoute]

lemma step_classify_conv (o : Oracle) (s : AgentState)
    (h : ¬ classify_intent_node o s = "DatabaseQuery") :
    step o (Node.classify_intent, s) =
      (Node.handle_conversation, { s with intent := some (classify_intent_node o s) }) := by
  simp [step, decide_intent_path, h, nodeOfRoute]

lemma step_exec_success (o : Oracle) (s : AgentState)
    (h : pyIn "Error:" (o.exec_result s) = false) :
    step o (Node.execute_query, s) =
      (Node.summarize_result, { s with result := some (o.exec_result s) }) := by
  simp [step, execute_query_node, decide_result_status, h, nodeOfRoute]

lemma step_exec_fail_retry (o : Oracle) (s : AgentState) (r : Nat)
    (hr : s.retries = some r) (h : pyIn "Error:" (o.exec_result s) = true) (h7 : r ≤ 7) :
    step o (Node.execute_query, s) =
      (Node.generate_query, { s with result := some (o.exec_result s) }) := by
  have h77 : ¬ r > 7 := by omega
  simp [step, execute_query_node, decide_result_status, h, hr, h77, nodeOfRoute]

lemma step_exec_fail_stop (o : Oracle) (s : AgentState) (r : Nat)
    (hr : s.retries = some r) (h : pyIn "Error:" (o.exec_result s) = true) (h7 : r > 7) :
    step o (Node.execute_query, s) =
      (Node.handle_error, { s with result := some (o.exec_result s) }) := by
  simp [step, execute_query_node, decide_result_status, h, hr, h7, nodeOfRoute]

lemma step_conv (o : Oracle) (s : AgentState) :
    step o (Node.handle_conversation, s) =
      (Node.END, { s with answer := some (o.conv_answer s) }) := rfl

lemma step_summ (o : Oracle) (s : AgentState) :
    step o (Node.summarize_result, s) =
      (Node.END, { s with answer := some (o.summ_answer s) }) := rfl

lemma step_err (o : Oracle) (s : AgentState) :
    step o (Node.handle_error, s) =
      (Node.END, { s with answer := some (o.error_answer s) }) := rfl

/-- Once the failure-explanation node has run, every later configuration of
the trace is the absorbing `END`. -/
lemma handle_error_absorbs (o : Oracle) (c : Node × AgentState) (n : Nat)
    (h : (iterRun o c n).1 = Node.handle_error) :
    ∀ m, n < m → (iterRun o c m).1 = Node.END := by
  intro m hm
  have heta : iterRun o c n = (Node.handle_error, (iterRun o c n).2) := by
    rw [← h]
  have hstep : iterRun o c (n + 1) =
      (Node.END, { (iterRun o c n).2 with
        answer := some (o.error_answer (iterRun o c n).2) }) := by
    rw [iterRun_succ2, heta, step_err]
  have hm2 : m = (m - (n + 1)) + (n + 1) := by omega
  rw [hm2, iterRun_add, hstep, iterRun_end]

/-- Exactly the generate node advances the retry counter, by exactly one;
every other node leaves it unchanged. -/
lemma step_retries (o : Oracle) (c : Node × AgentState) :
    (step o c).2.retries.getD 0 =
      c.2.retries.getD 0 + (if c.1 = Node.generate_query then 1 else 0) := by
  obtain ⟨node, s⟩ := c
  cases node <;> simp [step, generate_query_node] <;> split <;> simp

lemma InvR_step (o : Oracle) (c : Node × AgentState) (h : InvR c) : InvR (step o c) := by
  obtain ⟨node, s⟩ := c
  obtain ⟨h8, h7⟩ := h
  dsimp only at h8 h7
  cases node with
  | classify_intent =>
      by_cases hdb : classify_intent_node o s = "DatabaseQuery"
      · rw [step_classify_db o s hdb]
        exact ⟨by simpa using h8, fun _ => by simpa using h7 (Or.inl rfl)⟩
      · rw [step_classify_conv o s hdb]
        exact ⟨by simpa using h8, by simp⟩
  | generate_query =>
      rw [step_generate]
      have := h7 (Or.inr rfl)
      exact ⟨by simp; omega, by simp⟩
  | execute_query =>
      by_cases hp : pyIn "Error:" (o.exec_result s) = true
      · cases hr : s.retries with
        | none =>
            constructor
            · have := step_retries o (Node.execute_query, s)
              simp at this
              omega
            · intro hn
              exfalso
              simp [step, execute_query_node, decide_result_status, hp, hr] at hn
        | some r =>
            by_cases h77 : r > 7
            · rw [step_exec_fail_stop o s r hr hp h77]
              exact ⟨by simpa using h8, by simp⟩
            · rw [step_exec_fail_retry o s r hr hp (by omega)]
              refine ⟨by simpa using h8, fun _ => ?_⟩
              simp [hr]
              omega
      · rw [step_exec_success o s (by simpa using hp)]
        exact ⟨by simpa using h8, by simp⟩
  | handle_conversation => exact ⟨by simpa using h8, by simp [step]⟩
  | summarize_result => exact ⟨by simpa using h8, by simp [step]⟩
  | handle_error => exact ⟨by simpa using h8, by simp [step]⟩
  | END => exact ⟨by simpa using h8, by simp [step]⟩
  | crashed => exact ⟨by simpa using h8, by simp [step]⟩

lemma InvR_iter (o : Oracle) (c : Node × AgentState) (h : InvR c) (n : Nat) :
    InvR (iterRun o c n) := by
  induction n with
  | zero => exact h
  | succ n ih => rw [iterRun_succ2]; exact InvR_step o _ ih

/-- The retry counter of the trace is the initial counter plus the number of
generate-node executions so far. -/
lemma retries_eq_genCount (o : Oracle) (c : Node × AgentState) (n : Nat) :
    (iterRun o c n).2.retries.getD 0 = c.2.retries.getD 0 + genCount o c n := by
  induction n with
  | zero => simp [iterRun_zero, genCount]
  | succ n ih =>
      rw [iterRun_succ2, step_retries, ih, genCount]
      omega

/-- From the generate node, when the next execution outcome lacks the marker
or the incremented counter already exceeds 7, the repair loop exits in two
steps into a terminal node, having visited only generate and execute and
without touching `answer`. -/
lemma gen_exit_two (o : Oracle) (s : AgentState)
    (h : pyIn "Error:" (o.exec_result { s with
            query := some (sanitize_sql (o.gen_raw s)),
            retries := some (s.retries.getD 0 + 1) }) = false ∨
         7 < s.retries.getD 0 + 1) :
    ((iterRun o (Node.generate_query, s) 2).1 = Node.summarize_result ∨
     (iterRun o (Node.generate_query, s) 2).1 = Node.handle_error) ∧
    (∀ k, k < 2 → (iterRun o (Node.generate_query, s) k).1 = Node.generate_query ∨
                  (iterRun o (Node.generate_query, s) k).1 = Node.execute_query) ∧
    (∀ k, k ≤ 2 → (iterRun o (Node.generate_query, s) k).2.answer = s.answer) := by
  set s1 : AgentState := { s with
      query := some (sanitize_sql (o.gen_raw s)),
      retries := some (s.retries.getD 0 + 1) } with hs1
  have hret1 : s1.retries = some (s.retries.getD 0 + 1) := by rw [hs1]
  have e1 : ∀ k, iterRun o (Node.generate_query, s) (k + 1) =
      iterRun o (Node.execute_query, s1) k := by
    intro k
    rw [iterRun_succ, step_generate, ← hs1]
  have hstep : ∃ t, (t = Node.summarize_result ∨ t = Node.handle_error) ∧
      step o (Node.execute_query, s1) =
        (t, { s1 with result := some (o.exec_result s1) }) := by
    rcases h with hp | h7
    · exact ⟨_, Or.inl rfl, step_exec_success o s1 hp⟩
    · by_cases hp : pyIn "Error:" (o.exec_result s1) = true
      · exact ⟨_, Or.inr rfl, step_exec_fail_stop o s1 (s.retries.getD 0 + 1) hret1 hp h7⟩
      · exact ⟨_, Or.inl rfl, step_exec_success o s1 (by simpa using hp)⟩
  obtain ⟨t, ht, hstep⟩ := hstep
  have e4 : iterRun o (Node.generate_query, s) 2 =
      (t, { s1 with result := some (o.exec_result s1) }) := by
    have h21 : (2 : Nat) = 1 + 1 := rfl
    rw [h21, e1 1, iterRun_one, hstep]
  refine ⟨?_, ?_, ?_⟩
  · rw [e4]
    simpa using ht
  · intro k hk
    have hk2 : k = 0 ∨ k = 1 := by omega
    rcases hk2 with rfl | rfl
    · left; rfl
    · right
      have h01 : (1 : Nat) = 0 + 1 := rfl
      rw [h01, e1 0, iterRun_zero]
  · intro k hk
    have hk2 : k = 0 ∨ k = 1 ∨ k = 2 := by omega
    rcases hk2 with rfl | rfl | rfl
    · rfl
    · have h01 : (1 : Nat) = 0 + 1 := rfl
      rw [h01, e1 0, iterRun_zero, hs1]
    · rw [e4, hs1]

/-- Termination of the repair loop: from the generate node, once at most `d`
more increments can keep the counter below 8, the trace reaches a terminal
node (summarize or failure explanation) in at most `3 * d + 2` steps, having
visited only generate and execute on the way and leaving `answer` untouched. -/
lemma run_gen_over (d : Nat) (o : Oracle) : ∀ s : AgentState,
    8 ≤ s.retries.getD 0 + d →
    ∃ n, n ≤ 3 * d + 2 ∧
      ((iterRun o (Node.generate_query, s) n).1 = Node.summarize_result ∨
       (iterRun o (Node.generate_query, s) n).1 = Node.handle_error) ∧
      (∀ k, k < n → (iterRun o (Node.generate_query, s) k).1 = Node.generate_query ∨
                    (iterRun o (Node.generate_query, s) k).1 = Node.execute_query) ∧
      (∀ k, k ≤ n → (iterRun o (Node.generate_query, s) k).2.answer = s.answer) := by
  induction d with
  | zero =>
      intro s h8
      obtain ⟨hterm, hmid, hans⟩ := gen_exit_two o s (Or.inr (by omega))
      exact ⟨2, by omega, hterm, hmid, hans⟩
  | succ d ih =>
      intro s h8
      by_cases hp : pyIn "Error:" (o.exec_result { s with
          query := some (sanitize_sql (o.gen_raw s)),
          retries := some (s.retries.getD 0 + 1) }) = true
      · by_cases h77 : 7 < s.retries.getD 0 + 1
        · obtain ⟨hterm, hmid, hans⟩ := gen_exit_two o s (Or.inr h77)
          exact ⟨2, by omega, hterm, hmid, hans⟩
        · set s1 : AgentState := { s with
              query := some (sanitize_sql (o.gen_raw s)),
              retries := some (s.retries.getD 0 + 1) } with hs1
          have hret1 : s1.retries = some (s.retries.getD 0 + 1) := by rw [hs1]
          set s2 : AgentState := { s1 with result := some (o.exec_result s1) } with hs2
          have e1 : ∀ k, iterRun o (Node.generate_query, s) (k + 1) =
              iterRun o (Node.execute_query, s1) k := by
            intro k
            rw [iterRun_succ, step_generate, ← hs1]
          have e2 : ∀ k, iterRun o (Node.generate_query, s) (k + 2) =
              iterRun o (Node.generate_query, s2) k := by
            intro k
            have hk2 : k + 2 = (k + 1) + 1 := rfl
            rw [hk2, e1 (k + 1), iterRun_succ,
              step_exec_fail_retry o s1 (s.retries.getD 0 + 1) hret1 hp (by omega), ← hs2]
          have hret2 : s2.retries.getD 0 = s.retries.getD 0 + 1 := by simp [hs2, hs1]
          obtain ⟨n2, hb, hterm, hmid, hans⟩ := ih s2 (by rw [hret2]; omega)
          refine ⟨n2 + 2, by omega, ?_, ?_, ?_⟩
          · rw [e2 n2]
            exact hterm
          · intro k hk
            rcases Nat.lt_or_ge k 2 with h2 | h2
            · have hk2 : k = 0 ∨ k = 1 := by omega
              rcases hk2 with rfl | rfl
              · left; rfl
              · right
                have h01 : (1 : Nat) = 0 + 1 := rfl
                rw [h01, e1 0, iterRun_zero]
            · have hkj : k = (k - 2) + 2 := by omega
              rw [hkj, e2 (k - 2)]
              exact hmid (k - 2) (by omega)
          · intro k hk
            rcases Nat.lt_or_ge k 2 with h2 | h2
            · have hk2 : k = 0 ∨ k = 1 := by omega
              rcases hk2 with rfl | rfl
              · rfl
              · have h01 : (1 : Nat) = 0 + 1 := rfl
                rw [h01, e1 0, iterRun_zero, hs1]
            · have hkj : k = (k - 2) + 2 := by omega
              rw [hkj, e2 (k - 2), hans (k - 2) (by omega)]
      · obtain ⟨hterm, hmid, hans⟩ := gen_exit_two o s (Or.inl (by simpa using hp))
        exact ⟨2, by omega, hterm, hmid, hans⟩

/-- From an `END` configuration the trace no longer moves. -/
lemma end_absorbs (o : Oracle) (c : Node × AgentState) (n : Nat)
    (h : (iterRun o c n).1 = Node.END) :
    ∀ m, n ≤ m → iterRun o c m = iterRun o c n := by
  intro m hm
  have heta : iterRun o c n = (Node.END, (iterRun o c n).2) := by
    rw [← h]
  have hm2 : m = (m - n) + n := by omega
  rw [hm2, iterRun_add, heta, iterRun_end, ← heta]

/-- One step after any of the three terminal nodes the trace is at `END`,
and it stays there. -/
lemma terminal_absorbs (o : Oracle) (c : Node × AgentState) (n : Nat)
    (h : isTerminal (iterRun o c n).1 = true) :
    ∀ m, n < m → (iterRun o c m).1 = Node.END := by
  intro m hm
  have h1 : (iterRun o c (n + 1)).1 = Node.END := by
    rw [iterRun_succ2]
    rcases hnode : iterRun o c n with ⟨nd, st⟩
    rw [hnode] at h
    cases nd <;> simp_all [isTerminal, step]
  have habs := end_absorbs o c (n + 1) h1 m (by omega)
  rw [habs]
  exact h1

/-! ### The claims -/

/-- C1, counterexample: the router does not branch on a marker PREFIX.  A
result that merely contains `"Error:"` in the middle does not start with the
marker, yet `decide_result_status` sends it back to `generate_query`, not to
`summarize_result`. -/
theorem c1_router_counterexample :
    pyStartsWith "Error:" "Summary Error: no rows" = false ∧
    decide_result_status
      ({ question := "q", chat_history := [], query := some "SELECT 1",
         result := some "Summary Error: no rows", answer := none, retries := some 1,
         intent := some "DatabaseQuery" } : AgentState) = some "generate_query" ∧
    "generate_query" ≠ "summarize_result" := by
  refine ⟨by decide, by decide, by decide⟩

/-- C1, amended: for every run state reaching the router after an execution,
if the `result` text does not CONTAIN the failure marker `"Error:"` anywhere,
the router transitions to the summarize step, regardless of `retries`. -/
theorem c1_router_no_marker_summarize (s : AgentState) (res : String)
    (hres : s.result = some res) (h : pyIn "Error:" res = false) :
    decide_result_status s = some "summarize_result" := by
  simp [decide_result_status, hres, h]

/-- C1, amended, witness at a concrete routed state. -/
theorem c1_router_no_marker_summarize_witness :
    ({ question := "q", chat_history := [], query := some "SELECT 1",
       result := some "3 rows", answer := none, retries := some 1,
       intent := some "DatabaseQuery" } : AgentState).result = some "3 rows" ∧
    pyIn "Error:" "3 rows" = false ∧
    decide_result_status
      ({ question := "q", chat_history := [], query := some "SELECT 1",
         result := some "3 rows", answer := none, retries := some 1,
         intent := some "DatabaseQuery" } : AgentState) = some "summarize_result" :=
  ⟨rfl, by decide,
    c1_router_no_marker_summarize _ "3 rows" rfl (by decide)⟩

/-- C2: a result that starts with the failure marker makes the router loop
back to the generate node while `retries ≤ 7` and give up to the
failure-explanation node once `retries > 7`; and in every trace, once the
failure-explanation node has run, every later configuration is `END`: it is
never re-entered and no further generation attempt occurs. -/
theorem c2_router_marker_and_terminal_failure :
    (∀ (s : AgentState) (res : String) (r : Nat),
        s.result = some res → s.retries = some r → pyStartsWith "Error:" res = true →
        (r ≤ 7 → decide_result_status s = some "generate_query") ∧
        (7 < r → decide_result_status s = some "handle_error")) ∧
    (∀ (o : Oracle) (c : Node × AgentState) (n : Nat),
        (iterRun o c n).1 = Node.handle_error →
        ∀ m, n < m → (iterRun o c m).1 = Node.END ∧
          (iterRun o c m).1 ≠ Node.generate_query ∧
          (iterRun o c m).1 ≠ Node.handle_error) := by
  constructor
  · intro s res r hres hr hsw
    have hin : pyIn "Error:" res = true := pyStartsWith_pyIn _ _ hsw
    constructor
    · intro h7
      have h77 : ¬ r > 7 := by omega
      simp [decide_result_status, hres, hr, hin, h77]
    · intro h7
      simp [decide_result_status, hres, hr, hin, h7]
  · intro o c n h m hm
    have hEnd := handle_error_absorbs o c n h m hm
    refine ⟨hEnd, ?_, ?_⟩ <;> simp [hEnd]

/-- C2, witness: the router at a marker-prefixed result with `retries = 8`
gives up, and after the failure-explanation node the trace is at `END`. -/
theorem c2_router_marker_witness :
    (errState.result = some "Error: bad" ∧ errState.retries = some 8 ∧
     pyStartsWith "Error:" "Error: bad" = true ∧
     decide_result_status errState = some "handle_error") ∧
    ((iterRun sampleOracle (Node.handle_error, errState) 0).1 = Node.handle_error ∧
     (iterRun sampleOracle (Node.handle_error, errState) 1).1 = Node.END) :=
  ⟨⟨rfl, rfl, by decide,
    (c2_router_marker_and_terminal_failure.1 errState "Error: bad" 8 rfl rfl (by decide)).2
      (by omega)⟩,
   ⟨rfl,
    (c2_router_marker_and_terminal_failure.2 sampleOracle (Node.handle_error, errState) 0
      rfl 1 (by omega)).1⟩⟩

/-- C4: every invocation of the generate node returns exactly the new query
text and the old retry counter (absent read as 0) plus one; merging this
update changes no other state field; and no step of the graph ever decreases
the retry counter. -/
theorem c4_generate_frame (o : Oracle) (s : AgentState) :
    (generate_query_node o s).1 = sanitize_sql (o.gen_raw s) ∧
    (generate_query_node o s).2 = s.retries.getD 0 + 1 ∧
    ((step o (Node.generate_query, s)).2.query = some (sanitize_sql (o.gen_raw s)) ∧
     (step o (Node.generate_query, s)).2.retries = some (s.retries.getD 0 + 1) ∧
     (step o (Node.generate_query, s)).2.question = s.question ∧
     (step o (Node.generate_query, s)).2.chat_history = s.chat_history ∧
     (step o (Node.generate_query, s)).2.result = s.result ∧
     (step o (Node.generate_query, s)).2.answer = s.answer ∧
     (step o (Node.generate_query, s)).2.intent = s.intent) ∧
    (∀ (o2 : Oracle) (c : Node × AgentState),
        c.2.retries.getD 0 ≤ (step o2 c).2.retries.getD 0) := by
  refine ⟨rfl, rfl, ⟨rfl, rfl, rfl, rfl, rfl, rfl, rfl⟩, ?_⟩
  intro o2 c
  rw [step_retries]
  omega

/-- C5: the intent classifier is total: no tool call yields the conversation
intent, a first tool call yields its name, and the classify step always
leaves `intent` set. -/
theorem c5_classifier_total (o : Oracle) (s : AgentState) :
    (o.tool_calls = [] → classify_intent_node o s = "Conversation") ∧
    (∀ name rest, o.tool_calls = name :: rest → classify_intent_node o s = name) ∧
    (step o (Node.classify_intent, s)).2.intent = some (classify_intent_node o s) := by
  refine ⟨?_, ?_, ?_⟩
  · intro h
    simp [classify_intent_node, h]
  · intro name rest h
    simp [classify_intent_node, h]
  · by_cases hdb : classify_intent_node o s = "DatabaseQuery"
    · rw [step_classify_db o s hdb, hdb]
    · rw [step_classify_conv o s hdb]

/-- C5, witness: the two classifier outcomes and the set intent, concretely. -/
theorem c5_classifier_total_witness :
    (sampleOracle.tool_calls = [] ∧
     classify_intent_node sampleOracle sampleState = "Conversation") ∧
    (dbOracle.tool_calls = ["DatabaseQuery"] ∧
     classify_intent_node dbOracle sampleState = "DatabaseQuery") ∧
    (step sampleOracle (Node.classify_intent, sampleState)).2.intent =
      some (classify_intent_node sampleOracle sampleState) :=
  ⟨⟨rfl, (c5_classifier_total sampleOracle sampleState).1 rfl⟩,
   ⟨rfl, (c5_classifier_total dbOracle sampleState).2.1 "DatabaseQuery" [] rfl⟩,
   (c5_classifier_total sampleOracle sampleState).2.2⟩

/-- C9: the intent branch compares `intent` with the exact string
`"DatabaseQuery"`: only that value reaches the database path, and every other
value — including the classifier default `"Conversation"` — is routed to the
conversation handler. -/
theorem c9_intent_branch_exact (s : AgentState) (i : String) (hi : s.intent = some i) :
    (i = "DatabaseQuery" → decide_intent_path s = some "generate_query") ∧
    (i ≠ "DatabaseQuery" → decide_intent_path s = some "handle_conversation") ∧
    (decide_intent_path s = some "generate_query" → i = "DatabaseQuery") := by
  refine ⟨?_, ?_, ?_⟩
  · intro h
    simp [decide_intent_path, hi, h]
  · intro h
    simp [decide_intent_path, hi, h]
  · intro h
    by_contra hne
    simp [decide_intent_path, hi, hne] at h

/-- C9, witness: the default intent is routed to the conversation handler. -/
theorem c9_intent_branch_exact_witness :
    convState.intent = some "Conversation" ∧
    decide_intent_path convState = some "handle_conversation" :=
  ⟨rfl, (c9_intent_branch_exact convState "Conversation" rfl).2.1 (by decide)⟩

/-- C3: entering the database path with the retry counter unset (read as 0),
the generate node executes at most 8 times, the retry counter never exceeds
8, and for every possible sequence of execution outcomes the trace reaches a
terminal node (summarize or failure explanation) after which only `END`
follows. -/
theorem c3_retry_bound_and_termination (o : Oracle) (s : AgentState)
    (h0 : s.retries.getD 0 = 0) :
    (∀ n, genCount o (Node.generate_query, s) n ≤ 8) ∧
    (∀ n, (iterRun o (Node.generate_query, s) n).2.retries.getD 0 ≤ 8) ∧
    (∃ n, ((iterRun o (Node.generate_query, s) n).1 = Node.summarize_result ∨
           (iterRun o (Node.generate_query, s) n).1 = Node.handle_error) ∧
          ∀ m, n < m → (iterRun o (Node.generate_query, s) m).1 = Node.END) := by
  have hInv : InvR (Node.generate_query, s) := by
    constructor
    · simp [h0]
    · intro _
      simp [h0]
  have hret : ∀ n, (iterRun o (Node.generate_query, s) n).2.retries.getD 0 ≤ 8 :=
    fun n => (InvR_iter o _ hInv n).1
  refine ⟨?_, hret, ?_⟩
  · intro n
    have hcount := retries_eq_genCount o (Node.generate_query, s) n
    have h8 := hret n
    rw [hcount] at h8
    dsimp only at h8
    omega
  · obtain ⟨n, hb, hterm, hmid, hans⟩ := run_gen_over 8 o s (by omega)
    refine ⟨n, hterm, ?_⟩
    intro m hm
    have hT : isTerminal (iterRun o (Node.generate_query, s) n).1 = true := by
      rcases hterm with h | h <;> rw [h] <;> rfl
    exact terminal_absorbs o _ n hT m hm

/-- C3, witness: the concrete always-succeeding run from an initial state. -/
theorem c3_retry_bound_and_termination_witness :
    sampleState.retries.getD 0 = 0 ∧
    ((∀ n, genCount sampleOracle (Node.generate_query, sampleState) n ≤ 8) ∧
     (∀ n, (iterRun sampleOracle (Node.generate_query, sampleState) n).2.retries.getD 0 ≤ 8) ∧
     (∃ n, ((iterRun sampleOracle (Node.generate_query, sampleState) n).1 =
              Node.summarize_result ∨
            (iterRun sampleOracle (Node.generate_query, sampleState) n).1 =
              Node.handle_error) ∧
           ∀ m, n < m →
             (iterRun sampleOracle (Node.generate_query, sampleState) m).1 = Node.END)) :=
  ⟨rfl, c3_retry_bound_and_termination sampleOracle sampleState rfl⟩

/-- C8: in every run started at the entry node with `answer` unset, there is
exactly one index at which a terminal node (conversation handler, summarizer
or failure explainer) is scheduled; `answer` is still unset up to and
including that index, and from the next step on it holds one fixed written
value forever. -/
theorem c8_answer_written_once (o : Oracle) (s : AgentState) (hans : s.answer = none) :
    ∃ n, isTerminal (iterRun o (Node.classify_intent, s) n).1 = true ∧
      (∀ k, isTerminal (iterRun o (Node.classify_intent, s) k).1 = true → k = n) ∧
      (∀ k, k ≤ n → (iterRun o (Node.classify_intent, s) k).2.answer = none) ∧
      (∃ a, ∀ m, n < m →
        (iterRun o (Node.classify_intent, s) m).2.answer = some a) := by
  by_cases hdb : classify_intent_node o s = "DatabaseQuery"
  · -- database path
    set s1 : AgentState := { s with intent := some "DatabaseQuery" } with hs1
    have hshift : ∀ k, iterRun o (Node.classify_intent, s) (k + 1) =
        iterRun o (Node.generate_query, s1) k := by
      intro k
      rw [iterRun_succ, step_classify_db o s hdb, ← hs1]
    obtain ⟨n, hb, hterm, hmid, hans1⟩ := run_gen_over 8 o s1 (by omega)
    have hT : isTerminal (iterRun o (Node.classify_intent, s) (n + 1)).1 = true := by
      rw [hshift n]
      rcases hterm with h | h <;> rw [h] <;> rfl
    refine ⟨n + 1, hT, ?_, ?_, ?_⟩
    · intro k hk
      rcases Nat.lt_or_ge k (n + 2) with hlt | hge
      · have hcase : k = 0 ∨ (1 ≤ k ∧ k ≤ n) ∨ k = n + 1 := by omega
        rcases hcase with rfl | ⟨h1k, hkn⟩ | rfl
        · rw [iterRun_zero] at hk
          simp [isTerminal] at hk
        · exfalso
          have hk1 : k = (k - 1) + 1 := by omega
          rw [hk1, hshift (k - 1)] at hk
          rcases hmid (k - 1) (by omega) with h | h <;> rw [h] at hk <;>
            simp [isTerminal] at hk
        · rfl
      · exfalso
        have hE : (iterRun o (Node.classify_intent, s) k).1 = Node.END :=
          terminal_absorbs o _ (n + 1) hT k (by omega)
        rw [hE] at hk
        simp [isTerminal] at hk
    · intro k hk
      rcases Nat.eq_zero_or_pos k with rfl | hpos
      · exact hans
      · have hk1 : k = (k - 1) + 1 := by omega
        rw [hk1, hshift (k - 1), hans1 (k - 1) (by omega)]
        exact hans
    · rcases hnode : iterRun o (Node.classify_intent, s) (n + 1) with ⟨nd, st⟩
      have hT2 := hT
      rw [hnode] at hT2
      have hstep : ∃ a, iterRun o (Node.classify_intent, s) (n + 2) =
          (Node.END, { st with answer := some a }) := by
        have h2 : n + 2 = (n + 1) + 1 := rfl
        rw [h2, iterRun_succ2, hnode]
        cases nd <;> first | exact ⟨_, rfl⟩ | simp [isTerminal] at hT2
      obtain ⟨a, hE2⟩ := hstep
      refine ⟨a, ?_⟩
      intro m hm
      have habs := end_absorbs o (Node.classify_intent, s) (n + 2) (by rw [hE2]) m (by omega)
      rw [habs, hE2]
  · -- conversation path
    set s1 : AgentState := { s with intent := some (classify_intent_node o s) } with hs1
    have e1 : iterRun o (Node.classify_intent, s) 1 = (Node.handle_conversation, s1) := by
      rw [iterRun_one, step_classify_conv o s hdb, ← hs1]
    have e2 : iterRun o (Node.classify_intent, s) 2 =
        (Node.END, { s1 with answer := some (o.conv_answer s1) }) := by
      have h21 : (2 : Nat) = 1 + 1 := rfl
      rw [h21, iterRun_succ2, e1, step_conv]
    refine ⟨1, by rw [e1]; rfl, ?_, ?_, ⟨o.conv_answer s1, ?_⟩⟩
    · intro k hk
      rcases Nat.lt_or_ge k 2 with h2 | h2
      · have hcase : k = 0 ∨ k = 1 := by omega
        rcases hcase with rfl | rfl
        · rw [iterRun_zero] at hk
          simp [isTerminal] at hk
        · rfl
      · exfalso
        have hE : (iterRun o (Node.classify_intent, s) k).1 = Node.END := by
          have habs := end_absorbs o (Node.classify_intent, s) 2 (by rw [e2]) k (by omega)
          rw [habs, e2]
        rw [hE] at hk
        simp [isTerminal] at hk
    · intro k hk
      have hcase : k = 0 ∨ k = 1 := by omega
      rcases hcase with rfl | rfl
      · exact hans
      · rw [e1]
        exact hans
    · intro m hm
      have habs := end_absorbs o (Node.classify_intent, s) 2 (by rw [e2]) m (by omega)
      rw [habs, e2]

/-! ### Lemmas about the ingestion type inference -/

/-- A digit character is not a sign, so `stripSign` keeps it. -/
lemma stripSign_digit (c : Char) (cs : List Char) (h : c.isDigit = true) :
    stripSign (c :: cs) = c :: cs := by
  unfold stripSign
  have hplus : ¬ c = '+' := by
    intro hc
    subst hc
    exact absurd h (by decide)
  have hminus : ¬ c = '-' := by
    intro hc
    subst hc
    exact absurd h (by decide)
  simp [hplus, hminus]

/-- An all-digit non-empty character list parses as an unsigned float. -/
lemma digits_unsignedFloat (c : Char) (cs : List Char)
    (hall : ∀ ch ∈ c :: cs, ch.isDigit = true) :
    unsignedFloat (c :: cs) = true := by
  have ht : (c :: cs).takeWhile (fun ch => ch.isDigit) = c :: cs :=
    List.takeWhile_eq_self_iff.mpr hall
  have hd : (c :: cs).dropWhile (fun ch => ch.isDigit) = [] :=
    List.dropWhile_eq_nil_iff.mpr hall
  simp [unsignedFloat, parseMantissa, takeDigits, ht, hd, parseExponent]

/-- Every value passing the integer lexical test also parses as a float. -/
lemma intLexical_floatParses (v : String) (h : intLexical v = true) :
    floatParses v = true := by
  rw [intLexical, Bool.or_eq_true] at h
  rcases h with h | h
  · rw [strIsDigit, Bool.and_eq_true] at h
    obtain ⟨h1, h2⟩ := h
    rcases hl : v.toList with _ | ⟨c, cs⟩
    · rw [hl] at h1
      exact absurd h1 (by decide)
    · rw [hl] at h2
      rw [List.all_eq_true] at h2
      rw [floatParses, hl, stripSign_digit c cs (h2 c (by simp))]
      exact digits_unsignedFloat c cs h2
  · rw [floatParses]
    split at h
    next rest heq =>
      rw [Bool.and_eq_true] at h
      obtain ⟨hne, hall⟩ := h
      rw [heq]
      have hstrip : stripSign ('-' :: rest) = rest := by
        simp [stripSign]
      rw [hstrip]
      rw [List.all_eq_true] at hall
      rcases rest with _ | ⟨c2, cs2⟩
      · exact absurd hne (by decide)
      · exact digits_unsignedFloat c2 cs2 hall
    next =>
      exact absurd h (by decide)

/-- A row whose value for the column is empty is skipped by the scan. -/
lemma inferFlags_skip (col : String) (row : Row) (rest : List Row) (i b : Bool)
    (h : rowGet row col "" = "") :
    inferFlags col (row :: rest) i b = inferFlags col rest i b := by
  simp [inferFlags, h]

/-- Once both flags are false the scan stays at `(false, false)`. -/
lemma inferFlags_ff (col : String) (l : List Row) :
    inferFlags col l false false = (false, false) := by
  induction l with
  | nil => rfl
  | cons row rest ih =>
      by_cases h : rowGet row col "" = ""
      · rw [inferFlags_skip col row rest false false h, ih]
      · simp [inferFlags, h]

/-- With the integer flag already lost, the scan computes exactly whether
every remaining non-empty value parses as a float. -/
lemma inferFlags_ft (col : String) (l : List Row) :
    inferFlags col l false true = (false, colAllFloat l col) := by
  induction l with
  | nil => simp [inferFlags, colAllFloat]
  | cons row rest ih =>
      by_cases h : rowGet row col "" = ""
      · rw [inferFlags_skip col row rest false true h, ih]
        simp [colAllFloat, h]
      · cases hf : floatParses (rowGet row col "")
        · simp [inferFlags, h, hf, colAllFloat]
        · simp [inferFlags, h, hf, colAllFloat, ih]

/-- The scan started at `(True, True)` computes the two column-wide tests:
the integer flag is the all-integer test, and the real flag is true when the
all-integer test holds (the float branch is never consulted) or when every
non-empty value parses as a float. -/
lemma inferFlags_tt (col : String) (l : List Row) :
    inferFlags col l true true =
      (colAllInt l col, colAllInt l col || colAllFloat l col) := by
  induction l with
  | nil => simp [inferFlags, colAllInt, colAllFloat]
  | cons row rest ih =>
      by_cases h : rowGet row col "" = ""
      · rw [inferFlags_skip col row rest true true h, ih]
        simp [colAllInt, colAllFloat, h]
      · cases hi : intLexical (rowGet row col "")
        · cases hf : floatParses (rowGet row col "")
          · simp [inferFlags, h, hi, hf, colAllInt, colAllFloat]
          · simp [inferFlags, h, hi, hf, colAllInt, colAllFloat, inferFlags_ft]
        · have hfl : floatParses (rowGet row col "") = true :=
            intLexical_floatParses _ hi
          simp [inferFlags, h, hi, hfl, colAllInt, colAllFloat, ih]

/-- The final per-column type through the two column-wide tests. -/
lemma inferOne_spec (rows : List Row) (col : String) :
    inferOne rows col =
      if colAllInt rows col = true then "INTEGER"
      else if colAllFloat rows col = true then "REAL" else "TEXT" := by
  rw [inferOne, inferFlags_tt]
  cases hI : colAllInt rows col <;> cases hF : colAllFloat rows col <;> simp

/-- C8, witness: the concrete conversation run writes `answer` exactly once. -/
theorem c8_answer_written_once_witness :
    sampleState.answer = none ∧
    (∃ n, isTerminal (iterRun sampleOracle (Node.classify_intent, sampleState) n).1 = true ∧
      (∀ k, isTerminal (iterRun sampleOracle (Node.classify_intent, sampleState) k).1 = true →
        k = n) ∧
      (∀ k, k ≤ n →
        (iterRun sampleOracle (Node.classify_intent, sampleState) k).2.answer = none) ∧
      (∃ a, ∀ m, n < m →
        (iterRun sampleOracle (Node.classify_intent, sampleState) m).2.answer = some a)) :=
  ⟨rfl, c8_answer_written_once sampleOracle sampleState rfl⟩

/-- C6, counterexample: an entirely empty column leaves both scan flags at
their initial `True`, so `infer_column_types` classifies it as INTEGER, not
as text. -/
theorem c6_empty_column_counterexample :
    infer_column_types [[("a", "")]] = [("a", "INTEGER")] ∧
    ("INTEGER" : String) ≠ "TEXT" :=
  ⟨by decide, by decide⟩

/-- C6, amended: for an input column in which every sampled value is empty,
the ingestion type inference classifies that column as INTEGER (the scan
finds no evidence against the initial integer flag). -/
theorem c6_empty_column_integer (first : Row) (rest : List Row) (col : String)
    (hcol : col ∈ first.map Prod.fst) (hne : col ≠ "")
    (hempty : ∀ row ∈ first :: rest, rowGet row col "" = "") :
    (col, "INTEGER") ∈ infer_column_types (first :: rest) := by
  have hAll : colAllInt (first :: rest) col = true := by
    rw [colAllInt, List.all_eq_true]
    intro row hrow
    rw [Bool.or_eq_true]
    left
    rw [beq_iff_eq]
    exact hempty row hrow
  have hone : inferOne (first :: rest) col = "INTEGER" := by
    rw [inferOne_spec, if_pos hAll]
  rw [infer_column_types]
  refine List.mem_map.mpr ⟨col, ?_, by rw [hone]⟩
  refine List.mem_filter.mpr ⟨hcol, ?_⟩
  simpa using hne

/-- C6, amended, witness: the one-row, one-column, all-empty table. -/
theorem c6_empty_column_integer_witness :
    ("a" ∈ ([("a", "")] : Row).map Prod.fst) ∧ "a" ≠ "" ∧
    (∀ row ∈ [[("a", "")]], rowGet row "a" "" = "") ∧
    ("a", "INTEGER") ∈ infer_column_types [[("a", "")]] :=
  ⟨by decide, by decide, by decide,
    c6_empty_column_integer [("a", "")] [] "a" (by decide) (by decide) (by decide)⟩

/-- C7: per column, inference yields INTEGER exactly when every non-empty
sampled value passes the integer lexical test, otherwise REAL exactly when
every non-empty sampled value parses as a float, otherwise TEXT; and the
three concrete columns of the claim infer as stated. -/
theorem c7_infer_types (rows : List Row) (col : String) :
    (inferOne rows col =
      if colAllInt rows col = true then "INTEGER"
      else if colAllFloat rows col = true then "REAL" else "TEXT") ∧
    infer_column_types [[("c", "1")], [("c", "2")], [("c", "3")]] = [("c", "INTEGER")] ∧
    infer_column_types [[("c", "1")], [("c", "2.5")]] = [("c", "REAL")] ∧
    infer_column_types [[("c", "1")], [("c", "abc")]] = [("c", "TEXT")] :=
  ⟨inferOne_spec rows col, by decide, by decide, by decide⟩

/-- C10: the processed table's columns are exactly the non-empty keys of the
first row (a key only in later rows is never a column); each inserted tuple
takes `row.get(col, None)`, which is null for a row lacking the key; and a
row whose value for a column is missing reads as the empty string and is
skipped by the type-inference scan. -/
theorem c10_columns_first_row (first : Row) (rest : List Row)
    (cols : List String) (types : List (String × String))
    (vals : List (List (Option String)))
    (hp : processTable (first :: rest) = some (cols, types, vals)) :
    cols = (first.map Prod.fst).filter (fun c => c != "") ∧
    (∀ col, col ∈ cols → col ∈ first.map Prod.fst ∧ col ≠ "") ∧
    (∀ col, col ∉ first.map Prod.fst → col ∉ cols) ∧
    vals = (first :: rest).map (fun row => cols.map (fun col => rowGetOpt row col)) ∧
    (∀ (row : Row) (col : String), (∀ p ∈ row, p.1 ≠ col) → rowGetOpt row col = none) ∧
    (∀ (row : Row) (col : String), (∀ p ∈ row, p.1 ≠ col) → rowGet row col "" = "") ∧
    (∀ (col : String) (row : Row) (rs : List Row) (i b : Bool),
        rowGet row col "" = "" → inferFlags col (row :: rs) i b = inferFlags col rs i b) := by
  rw [processTable] at hp
  by_cases hc : ((first.map Prod.fst).filter (fun c => c != "")).isEmpty = true
  · rw [if_pos hc] at hp
    exact absurd hp (by simp)
  · rw [if_neg hc, Option.some_inj] at hp
    have h1 : (first.map Prod.fst).filter (fun c => c != "") = cols :=
      congrArg Prod.fst hp
    have h3 : (first :: rest).map
        (fun row => ((first.map Prod.fst).filter (fun c => c != "")).map
          (fun col => rowGetOpt row col)) = vals :=
      congrArg (fun p => p.2.2) hp
    subst h1
    subst h3
    refine ⟨rfl, ?_, ?_, rfl, ?_, ?_, ?_⟩
    · intro col hcol
      have hm := List.mem_filter.mp hcol
      exact ⟨hm.1, by simpa using hm.2⟩
    · intro col hnot hmem
      exact hnot (List.mem_filter.mp hmem).1
    · intro row col h
      have hfind : row.find? (fun q => q.1 == col) = none := by
        rw [List.find?_eq_none]
        intro q hq
        simp only [beq_iff_eq]
        exact h q hq
      rw [rowGetOpt, hfind]
      rfl
    · intro row col h
      have hfind : row.find? (fun q => q.1 == col) = none := by
        rw [List.find?_eq_none]
        intro q hq
        simp only [beq_iff_eq]
        exact h q hq
      rw [rowGet, hfind]
    · intro col row rs i b h
      exact inferFlags_skip col row rs i b h

/-- C10, witness: a table whose first row has one valid and one empty-named
key, and whose second row has a key absent from the first row. -/
theorem c10_columns_first_row_witness :
    processTable [[("a", "1"), ("", "x")], [("b", "2")]] =
      some (["a"], [("a", "INTEGER")], [[some "1"], [none]]) ∧
    (["a"] : List String) =
      (([("a", "1"), ("", "x")] : Row).map Prod.fst).filter (fun c => c != "") :=
  ⟨by decide,
    (c10_columns_first_row [("a", "1"), ("", "x")] [[("b", "2")]]
      ["a"] [("a", "INTEGER")] [[some "1"], [none]] (by decide)).1⟩

end Botivate
